import Mathlib

/-!
Shallow embedding of the cast-notify core (src/src/lib.rs): the mDNS
record extractor inside `discover`, the deduplicating `Unique` stream,
and the `connect` / `say` call sequences against the external
device-control client.  Streams are modelled as finite lists of items;
the `HashSet<SocketAddr>` seen-set is modelled as a list queried by
membership.
-/

namespace CastNotify

/-- An IPv4 address, four octets (models `std::net::Ipv4Addr`). -/
structure Ipv4 where
  a : Nat
  b : Nat
  c : Nat
  d : Nat
deriving DecidableEq, Repr

/-- Models `std::net::SocketAddr` built from an IPv4 address and a port. -/
structure SocketAddr where
  ip : Ipv4
  port : Nat
deriving DecidableEq, Repr

/-- Models `mdns::RecordKind`: the three variants the code inspects, and
`other` standing for every remaining variant (AAAA, PTR, ...). -/
inductive RecordKind where
  | TXT (data : List String)
  | A (ip : Ipv4)
  | SRV (port : Nat)
  | other
deriving DecidableEq, Repr

/-- A resource record; the code only reads its `kind` field. -/
structure Record where
  kind : RecordKind
deriving DecidableEq, Repr

/-- A raw mDNS response; the code only reads `additional`. -/
structure Response where
  additional : List Record
deriving DecidableEq, Repr

/-- The `Target` struct: a discovered device descriptor. -/
structure Target where
  name : String
  addr : SocketAddr
deriving DecidableEq, Repr

/-- The crate's `Error` enum; the payloads of the external error types
(`mdns::Error`, `rust_cast::errors::Error`) are abstracted to `Nat`. -/
inductive Error where
  | mdns (e : Nat)
  | cast (e : Nat)
deriving DecidableEq, Repr

/-- Rust's `str::split('=')`: split a string at every `=`, keeping
empty segments (a string with no `=` yields the one-element list of
itself).  Implemented over the character list so the kernel can
evaluate it. -/
def splitEq (item : String) : List String :=
  (item.toList.splitOnP (fun c => c = '=')).map (fun l => String.mk l)

/-- The TXT scan inside the `try_filter_map` closure of `discover`
(lib.rs lines 153-163): among a TXT record's items, keep those whose
first `=`-segment is `"fn"`, take the first such item, and read the
segment between the first and second `=` as the name. -/
def txtName (data : List String) : Option String :=
  (((data.filter (fun item => (splitEq item).head? = some "fn")).head?).map
    (fun item => ((splitEq item).drop 1).head?)).join

/-- Name contribution of a single record (lib.rs lines 152-166): only a
TXT record can contribute, via `txtName`. -/
def recordName (k : RecordKind) : Option String :=
  match k with
  | .TXT data => txtName data
  | _ => none

/-- IP contribution of a single record (lib.rs lines 177-181). -/
def kindIp (k : RecordKind) : Option Ipv4 :=
  match k with
  | .A ip => some ip
  | _ => none

/-- Port contribution of a single record (lib.rs lines 188-192). -/
def kindPort (k : RecordKind) : Option Nat :=
  match k with
  | .SRV port => some port
  | _ => none

/-- First name found over a response's additional records
(lib.rs lines 148-168). -/
def responseName (r : Response) : Option String :=
  (r.additional.filterMap (fun rec => recordName rec.kind)).head?

/-- First IPv4 address record of a response (lib.rs lines 172-183). -/
def responseIp (r : Response) : Option Ipv4 :=
  (r.additional.filterMap (fun rec => kindIp rec.kind)).head?

/-- First SRV port of a response (lib.rs lines 184-194). -/
def responsePort (r : Response) : Option Nat :=
  (r.additional.filterMap (fun rec => kindPort rec.kind)).head?

/-- The record extractor: the whole `try_filter_map` closure of
`discover` (lib.rs lines 147-200).  A descriptor is produced only when
the name, the address and the port are all present; the closure never
produces an error of its own. -/
def extract (r : Response) : Option Target :=
  (responseName r).bind (fun name =>
    (responseIp r).bind (fun ip =>
      (responsePort r).map (fun port =>
        { name := name, addr := { ip := ip, port := port } })))

/-- One stream item after `try_filter_map`: upstream errors (already
mapped into `Error.mdns`) pass through; an `ok` response goes through
`extract`, yielding nothing when extraction fails. -/
def extractItem : Except Nat Response → Option (Except Error Target)
  | .error e => some (.error (.mdns e))
  | .ok r => (extract r).map .ok

/-- The extractor stage applied to a finite upstream sequence. -/
def extractStream (l : List (Except Nat Response)) : List (Except Error Target) :=
  l.filterMap extractItem

/-- One call of `Unique::poll_next` (lib.rs lines 121-134) on a finite
remaining upstream: loop over upstream items; `?` forwards an error at
once leaving the seen-set untouched; an `ok` whose address inserts
freshly is emitted with the grown seen-set; a duplicate is dropped and
the loop continues.  `none` means the poll ran to upstream exhaustion. -/
def pollNext (seen : List SocketAddr) :
    List (Except Error Target) →
      Option (Except Error Target × List SocketAddr × List (Except Error Target))
  | [] => none
  | .error e :: rest => some (.error e, seen, rest)
  | .ok t :: rest =>
      if t.addr ∈ seen then pollNext seen rest
      else some (.ok t, t.addr :: seen, rest)

/-- Driving `Unique` to completion over a finite upstream: the sequence
of items `poll_next` yields until upstream ends. -/
def uniqueRun (seen : List SocketAddr) :
    List (Except Error Target) → List (Except Error Target)
  | [] => []
  | .error e :: rest => .error e :: uniqueRun seen rest
  | .ok t :: rest =>
      if t.addr ∈ seen then uniqueRun seen rest
      else .ok t :: uniqueRun (t.addr :: seen) rest

/-- The whole `discover` pipeline (lib.rs lines 137-201) on a finite
run: the source is either the single query failure (`Either::Right` of
`once(Err(e.into()))`) or a finite sequence of listen results; the
extractor stage then feeds a fresh `Unique` (empty seen-set). -/
def discoverRun : Except Nat (List (Except Nat Response)) → List (Except Error Target)
  | .error e => uniqueRun [] [Except.error (Error.mdns e)]
  | .ok items => uniqueRun [] (extractStream items)

/-! ### Model of the device-control collaborator (rust_cast) -/

/-- The application handle `launch_app` returns. -/
structure App where
  transport_id : String
  session_id : String
deriving DecidableEq, Repr

/-- `rust_cast::channels::media::StreamType`. -/
inductive StreamType where
  | NoneType
  | Buffered
  | Live
deriving DecidableEq, Repr

/-- `rust_cast::channels::media::Media`: only the fields `say` sets;
`metadata` is abstracted to a `Nat` payload. -/
structure Media where
  stream_type : StreamType
  duration : Option Nat
  metadata : Option Nat
  content_type : String
  content_id : String
deriving DecidableEq, Repr

/-- A `CastDevice` as the code uses it: each channel operation is an
abstract function giving that call's result (payload of
`rust_cast::errors::Error` abstracted to `Nat`). -/
structure CastDevice where
  launch_app : String → Except Nat App
  connection_connect : String → Except Nat Unit
  heartbeat_ping : Except Nat Unit
  media_load : String → String → Media → Except Nat Unit

/-- The `Connection` struct: it owns the connected device. -/
structure Connection where
  device : CastDevice

def DEFAULT_DESTINATION_ID : String := "receiver-0"

/-- `self.addr.ip().to_string()` for an IPv4 address. -/
def Ipv4.toDotted (ip : Ipv4) : String :=
  toString ip.a ++ "." ++ toString ip.b ++ "." ++ toString ip.c ++ "." ++ toString ip.d

/-- One collaborator call made by `Target::connect`. -/
inductive ConnectStep where
  | openConnection (host : String) (port : Nat)
  | connectDest (dest : String)
  | ping
deriving DecidableEq, Repr

/-- `Target::connect` (lib.rs lines 68-85): open the control connection
to the descriptor's address, connect the default receiver endpoint,
ping; each `?` aborts with that step's error (wrapped by
`Error::Cast`).  The first component records the collaborator calls
actually issued, in order. -/
def targetConnect (cwhv : String → Nat → Except Nat CastDevice) (t : Target) :
    List ConnectStep × Except Error Connection :=
  match cwhv t.addr.ip.toDotted t.addr.port with
  | .error e => ([.openConnection t.addr.ip.toDotted t.addr.port], .error (.cast e))
  | .ok device =>
    match device.connection_connect DEFAULT_DESTINATION_ID with
    | .error e =>
        ([.openConnection t.addr.ip.toDotted t.addr.port,
          .connectDest DEFAULT_DESTINATION_ID], .error (.cast e))
    | .ok _ =>
      match device.heartbeat_ping with
      | .error e =>
          ([.openConnection t.addr.ip.toDotted t.addr.port,
            .connectDest DEFAULT_DESTINATION_ID, .ping], .error (.cast e))
      | .ok _ =>
          ([.openConnection t.addr.ip.toDotted t.addr.port,
            .connectDest DEFAULT_DESTINATION_ID, .ping],
           .ok { device := device })

/-- One collaborator call made by `Connection::say`. -/
inductive SayStep where
  | launch (appId : String)
  | connect (transportId : String)
  | load (transportId : String) (sessionId : String) (media : Media)
deriving DecidableEq, Repr

/-- The media item `say` builds (lib.rs lines 53-59); `url` is the
external speech-locator collaborator `google_translate_tts::url`. -/
def sayMedia (url : String → String → String) (message : String) : Media :=
  { stream_type := .Buffered
    duration := none
    metadata := none
    content_type := "audio/mp3"
    content_id := url message "en" }

/-- `Connection::say` (lib.rs lines 43-64): launch the fixed app
`"CC1AD845"`, connect the returned transport id, load the media item;
each `?` aborts with that step's error.  The first component records
the collaborator calls actually issued, in order. -/
def say (url : String → String → String) (c : Connection) (message : String) :
    List SayStep × Except Error Unit :=
  match c.device.launch_app "CC1AD845" with
  | .error e => ([.launch "CC1AD845"], .error (.cast e))
  | .ok app =>
    match c.device.connection_connect app.transport_id with
    | .error e =>
        ([.launch "CC1AD845", .connect app.transport_id], .error (.cast e))
    | .ok _ =>
      match c.device.media_load app.transport_id app.session_id (sayMedia url message) with
      | .error e =>
          ([.launch "CC1AD845", .connect app.transport_id,
            .load app.transport_id app.session_id (sayMedia url message)],
           .error (.cast e))
      | .ok _ =>
          ([.launch "CC1AD845", .connect app.transport_id,
            .load app.transport_id app.session_id (sayMedia url message)],
           .ok ())

/-! ### Spec-side definitions used to state the claims -/

/-- The successful descriptors of an item sequence. -/
def oks (l : List (Except Error Target)) : List Target :=
  l.filterMap (fun it => match it with | .ok t => some t | .error _ => none)

/-- The errors of an item sequence. -/
def errs (l : List (Except Error Target)) : List Error :=
  l.filterMap (fun it => match it with | .ok _ => none | .error e => some e)

/-- Spec-side first-seen filter: keep each descriptor whose address was
not seen before, in arrival order ("emits each distinct address exactly
once, in first-seen order"). -/
def keepFirstByAddr (seen : List SocketAddr) : List Target → List Target
  | [] => []
  | t :: rest =>
      if t.addr ∈ seen then keepFirstByAddr seen rest
      else t :: keepFirstByAddr (t.addr :: seen) rest

/-- Name selection following the spec's words for C5: "a text record
whose FIRST key=value pair has key fn; its value becomes the candidate
name" — the record's first pair must carry key `fn`. -/
def txtNameSpecC5 (data : List String) : Option String :=
  data.head?.bind (fun item =>
    if (splitEq item).head? = some "fn" then ((splitEq item).drop 1).head?
    else none)

/-- Response-level name selection under the C5 spec reading. -/
def responseNameSpecC5 (r : Response) : Option String :=
  (r.additional.filterMap (fun rec =>
    match rec.kind with
    | .TXT data => txtNameSpecC5 data
    | _ => none)).head?

/-- The extractor as the C5 spec sentence describes it. -/
def extractSpecC5 (r : Response) : Option Target :=
  (responseNameSpecC5 r).bind (fun name =>
    (responseIp r).bind (fun ip =>
      (responsePort r).map (fun port =>
        { name := name, addr := { ip := ip, port := port } })))

deriving instance DecidableEq for Except

/-! ### Concrete fixtures used by witness theorems -/

/-- A response with no fn text record (name missing). -/
def rNameless : Response := ⟨[⟨.A ⟨1, 2, 3, 4⟩⟩, ⟨.SRV 8009⟩]⟩

/-- A complete response naming the device `A`. -/
def rOrderA : Response := ⟨[⟨.TXT ["fn=A"]⟩, ⟨.A ⟨10, 0, 0, 1⟩⟩, ⟨.SRV 8009⟩]⟩

/-- The same device address as `rOrderA`, records permuted, name `B`. -/
def rOrderB : Response := ⟨[⟨.SRV 8009⟩, ⟨.A ⟨10, 0, 0, 1⟩⟩, ⟨.TXT ["fn=B"]⟩]⟩

/-- A concrete discovered device. -/
def tHome : Target := ⟨"LivingRoom", ⟨⟨192, 168, 1, 42⟩, 8009⟩⟩

/-- The app handle a healthy fixture device returns. -/
def appFix : App := ⟨"transport-1", "session-1"⟩

/-- A device on which every collaborator call succeeds. -/
def deviceOk : CastDevice :=
  ⟨fun _ => .ok appFix, fun _ => .ok (), .ok (), fun _ _ _ => .ok ()⟩

/-- A device whose app launch fails with error payload 5. -/
def deviceLaunchFail : CastDevice :=
  ⟨fun _ => .error 5, fun _ => .ok (), .ok (), fun _ _ _ => .ok ()⟩

/-- A device whose liveness probe fails with error payload 9. -/
def devicePingFail : CastDevice :=
  ⟨fun _ => .ok appFix, fun _ => .ok (), .error 9, fun _ _ _ => .ok ()⟩

/-- A connect collaborator that always succeeds with `deviceOk`. -/
def cwhvOk : String → Nat → Except Nat CastDevice := fun _ _ => .ok deviceOk

/-- A connect collaborator that refuses the connection (payload 7). -/
def cwhvFail : String → Nat → Except Nat CastDevice := fun _ _ => .error 7

/-- A connect collaborator handing out the ping-failing device. -/
def cwhvPing : String → Nat → Except Nat CastDevice := fun _ _ => .ok devicePingFail

/-- A concrete speech-locator collaborator. -/
def urlFix : String → String → String := fun text lang => "tts/" ++ text ++ "/" ++ lang

/-! ### Helper lemmas -/

@[simp] theorem oks_nil : oks [] = [] := rfl

@[simp] theorem oks_cons_ok (t : Target) (l : List (Except Error Target)) :
    oks (.ok t :: l) = t :: oks l := rfl

@[simp] theorem oks_cons_error (e : Error) (l : List (Except Error Target)) :
    oks (.error e :: l) = oks l := rfl

@[simp] theorem errs_nil : errs [] = [] := rfl

@[simp] theorem errs_cons_ok (t : Target) (l : List (Except Error Target)) :
    errs (.ok t :: l) = errs l := rfl

@[simp] theorem errs_cons_error (e : Error) (l : List (Except Error Target)) :
    errs (.error e :: l) = e :: errs l := rfl

theorem uniqueRun_sublist (seen : List SocketAddr) (l : List (Except Error Target)) :
    (uniqueRun seen l).Sublist l := by
  induction l generalizing seen with
  | nil => simp [uniqueRun]
  | cons x rest ih =>
    cases x with
    | error e =>
      simp only [uniqueRun]
      exact List.Sublist.cons₂ _ (ih seen)
    | ok t =>
      by_cases h : t.addr ∈ seen
      · simp only [uniqueRun, if_pos h]
        exact List.Sublist.cons _ (ih seen)
      · simp only [uniqueRun, if_neg h]
        exact List.Sublist.cons₂ _ (ih _)

theorem oks_uniqueRun (seen : List SocketAddr) (l : List (Except Error Target)) :
    oks (uniqueRun seen l) = keepFirstByAddr seen (oks l) := by
  induction l generalizing seen with
  | nil => rfl
  | cons x rest ih =>
    cases x with
    | error e => simpa [uniqueRun] using ih seen
    | ok t =>
      by_cases h : t.addr ∈ seen
      · rw [show uniqueRun seen (.ok t :: rest) = uniqueRun seen rest from by
            simp [uniqueRun, h],
          oks_cons_ok,
          show keepFirstByAddr seen (t :: oks rest) = keepFirstByAddr seen (oks rest) from by
            simp [keepFirstByAddr, h]]
        exact ih seen
      · rw [show uniqueRun seen (.ok t :: rest) = .ok t :: uniqueRun (t.addr :: seen) rest from by
            simp [uniqueRun, h],
          oks_cons_ok, oks_cons_ok,
          show keepFirstByAddr seen (t :: oks rest)
              = t :: keepFirstByAddr (t.addr :: seen) (oks rest) from by
            simp [keepFirstByAddr, h]]
        rw [ih]

theorem keepFirstByAddr_nodup (seen : List SocketAddr) (l : List Target) :
    ((keepFirstByAddr seen l).map Target.addr).Nodup ∧
      ∀ a ∈ (keepFirstByAddr seen l).map Target.addr, a ∉ seen := by
  induction l generalizing seen with
  | nil => simp [keepFirstByAddr]
  | cons t rest ih =>
    by_cases h : t.addr ∈ seen
    · simp only [keepFirstByAddr, if_pos h]
      exact ih seen
    · simp only [keepFirstByAddr, if_neg h, List.map_cons, List.nodup_cons]
      obtain ⟨hn, hs⟩ := ih (t.addr :: seen)
      refine ⟨⟨fun hc => ?_, hn⟩, ?_⟩
      · exact (hs _ hc) (List.mem_cons_self _ _)
      · intro a ha
        rcases List.mem_cons.mp ha with rfl | ha
        · exact h
        · intro hseen
          exact (hs a ha) (List.mem_cons_of_mem _ hseen)

theorem errs_uniqueRun (seen : List SocketAddr) (l : List (Except Error Target)) :
    errs (uniqueRun seen l) = errs l := by
  induction l generalizing seen with
  | nil => rfl
  | cons x rest ih =>
    cases x with
    | error e => simp [uniqueRun, ih seen]
    | ok t =>
      by_cases h : t.addr ∈ seen
      · simp [uniqueRun, h, ih seen]
      · simp [uniqueRun, h, ih]

theorem pollNext_none_spent (seen : List SocketAddr) (l : List (Except Error Target)) :
    pollNext seen l = none → errs l = [] ∧ ∀ t ∈ oks l, t.addr ∈ seen := by
  induction l generalizing seen with
  | nil => intro _; simp
  | cons x rest ih =>
    cases x with
    | error e => intro h; simp [pollNext] at h
    | ok t =>
      by_cases hm : t.addr ∈ seen
      · intro h
        simp only [pollNext, if_pos hm] at h
        obtain ⟨he, ho⟩ := ih seen h
        refine ⟨by simpa using he, ?_⟩
        intro u hu
        rcases List.mem_cons.mp (by simpa using hu) with rfl | hu
        · exact hm
        · exact ho u hu
      · intro h
        simp [pollNext, if_neg hm] at h

theorem txtName_fn_bare (rest : List String) : txtName ("fn" :: rest) = none := by
  simp only [txtName, List.filter_cons]
  rw [if_pos (by decide)]
  rfl

theorem head?_filter_append {α : Type} (p : α → Bool) (x : α) (hx : p x = true) :
    ∀ l1 l2 : List α, (∀ a ∈ l1, p a = false) →
      (List.filter p (l1 ++ x :: l2)).head? = some x := by
  intro l1
  induction l1 with
  | nil =>
    intro l2 _
    simp [List.filter_cons, hx]
  | cons a t ih =>
    intro l2 h1
    have ha := h1 a (List.mem_cons_self _ _)
    simpa [List.cons_append, List.filter_cons, ha] using
      ih l2 (fun y hy => h1 y (List.mem_cons_of_mem _ hy))

theorem head?_filterMap_append {α β : Type} (f : α → Option β) (x : α) (b : β)
    (hx : f x = some b) :
    ∀ l1 l2 : List α, (∀ a ∈ l1, f a = none) →
      (List.filterMap f (l1 ++ x :: l2)).head? = some b := by
  intro l1
  induction l1 with
  | nil =>
    intro l2 _
    simp [List.filterMap_cons, hx]
  | cons a t ih =>
    intro l2 h1
    have ha := h1 a (List.mem_cons_self _ _)
    simpa [List.cons_append, List.filterMap_cons, ha] using
      ih l2 (fun y hy => h1 y (List.mem_cons_of_mem _ hy))

/-! ### Claim theorems -/

/-- C1: over any finite upstream sequence, `Unique` emits a
subsequence of its input (arrival order preserved, no reordering), its
successful descriptors are exactly the first-seen-per-address filter of
the upstream descriptors (each distinct address emitted exactly once,
at its first arrival, later repeats discarded while polling continues),
and the emitted addresses are pairwise distinct. -/
theorem c1_dedup_first_seen (l : List (Except Error Target)) :
    (uniqueRun [] l).Sublist l ∧
      oks (uniqueRun [] l) = keepFirstByAddr [] (oks l) ∧
      ((oks (uniqueRun [] l)).map Target.addr).Nodup :=
  ⟨uniqueRun_sublist [] l, oks_uniqueRun [] l, by
    rw [oks_uniqueRun]
    exact (keepFirstByAddr_nodup [] (oks l)).1⟩

/-- C2: `Unique` forwards every upstream error unchanged and in order;
a `poll_next` that meets an error returns it at once with the seen-set
untouched and the rest of the upstream intact (the stream does not
end); and a poll can come back empty only once upstream is exhausted —
every remaining upstream item was a duplicate `ok`, never an error. -/
theorem c2_errors_forwarded (seen : List SocketAddr) (l : List (Except Error Target)) :
    errs (uniqueRun seen l) = errs l ∧
      (∀ e rest, pollNext seen (Except.error e :: rest) = some (.error e, seen, rest)) ∧
      (pollNext seen l = none → errs l = [] ∧ ∀ t ∈ oks l, t.addr ∈ seen) :=
  ⟨errs_uniqueRun seen l, fun _ _ => rfl, pollNext_none_spent seen l⟩

/-- C2 witness: an error is forwarded unchanged with the seen-set and
remaining upstream intact, and an exhausted poll means only duplicate
descriptors remained. -/
theorem c2_errors_forwarded_witness :
    pollNext [] [Except.error (Error.mdns 4), Except.ok tHome] =
        some (Except.error (Error.mdns 4), [], [Except.ok tHome]) ∧
      (errs [Except.ok ⟨"X", tHome.addr⟩] = [] ∧
        ∀ t ∈ oks [Except.ok ⟨"X", tHome.addr⟩], t.addr ∈ [tHome.addr]) :=
  ⟨(c2_errors_forwarded [] []).2.1 (Error.mdns 4) [Except.ok tHome],
   (c2_errors_forwarded [tHome.addr] [Except.ok ⟨"X", tHome.addr⟩]).2.2 (by decide)⟩

/-- C3: a response missing the fn name, the A record, or the SRV port
yields no descriptor and no stream item at all — never an error. -/
theorem c3_missing_piece_skipped (r : Response)
    (h : responseName r = none ∨ responseIp r = none ∨ responsePort r = none) :
    extract r = none ∧ extractItem (Except.ok r) = none := by
  have hx : extract r = none := by
    rcases h with h | h | h
    · simp [extract, h]
    · cases hn : responseName r <;> simp [extract, hn, h]
    · cases hn : responseName r <;> cases hi : responseIp r <;> simp [extract, hn, hi, h]
  exact ⟨hx, by simp [extractItem, hx]⟩

/-- C3 witness: a response with address and port but no fn text record
is silently skipped. -/
theorem c3_missing_piece_skipped_witness :
    extract rNameless = none ∧ extractItem (Except.ok rNameless) = none :=
  c3_missing_piece_skipped rNameless (Or.inl (by decide))

/-- C4: a response holding the text record pair `fn=LivingRoom`, an A
record `192.168.1.42` and an SRV record with port `8009` extracts to
the descriptor named `LivingRoom` at `192.168.1.42:8009`. -/
theorem c4_extract_livingroom :
    extract ⟨[⟨.TXT ["fn=LivingRoom"]⟩, ⟨.A ⟨192, 168, 1, 42⟩⟩, ⟨.SRV 8009⟩]⟩ =
      some ⟨"LivingRoom", ⟨⟨192, 168, 1, 42⟩, 8009⟩⟩ := by decide

/-- C5 counterexample: the extractor does NOT require the fn pair to be
the record's first `key=value` pair.  On a TXT record `[id=1, fn=Foo]`
(first pair keyed `id`) the code still extracts the name `Foo`, while
the claim's reading of name selection yields nothing. -/
theorem c5_counterexample :
    extract ⟨[⟨.TXT ["id=1", "fn=Foo"]⟩, ⟨.A ⟨10, 0, 0, 1⟩⟩, ⟨.SRV 8009⟩]⟩ =
        some ⟨"Foo", ⟨⟨10, 0, 0, 1⟩, 8009⟩⟩ ∧
      extractSpecC5 ⟨[⟨.TXT ["id=1", "fn=Foo"]⟩, ⟨.A ⟨10, 0, 0, 1⟩⟩, ⟨.SRV 8009⟩]⟩ =
        none := by decide

/-- C5 amended: the candidate name comes from the first fn-keyed
`key=value` pair of a text record, wherever that pair sits in the
record; and for each required record kind the first matching record in
the response wins — the first fn-bearing text record, the first A
record and the first SRV record, later duplicates ignored. -/
theorem c5_amended_first_wins :
    (∀ (items1 : List String) (p : String) (items2 : List String),
        (∀ i ∈ items1, (splitEq i).head? ≠ some "fn") →
        (splitEq p).head? = some "fn" →
        txtName (items1 ++ p :: items2) = ((splitEq p).drop 1).head?) ∧
      (∀ (rs1 : List Record) (r : Record) (rs2 : List Record) (n : String),
          (∀ x ∈ rs1, recordName x.kind = none) →
          recordName r.kind = some n →
          responseName ⟨rs1 ++ r :: rs2⟩ = some n) ∧
      (∀ (rs1 : List Record) (ip : Ipv4) (rs2 : List Record),
          (∀ x ∈ rs1, kindIp x.kind = none) →
          responseIp ⟨rs1 ++ ⟨.A ip⟩ :: rs2⟩ = some ip) ∧
      (∀ (rs1 : List Record) (port : Nat) (rs2 : List Record),
          (∀ x ∈ rs1, kindPort x.kind = none) →
          responsePort ⟨rs1 ++ ⟨.SRV port⟩ :: rs2⟩ = some port) := by
  refine ⟨?_, ?_, ?_, ?_⟩
  · intro items1 p items2 h1 hp
    have h := head?_filter_append (fun item => decide ((splitEq item).head? = some "fn"))
      p (by simp [hp]) items1 items2 (fun a ha => by simp [h1 a ha])
    unfold txtName
    rw [h]
    rfl
  · intro rs1 r rs2 n h1 h2
    unfold responseName
    exact head?_filterMap_append _ r n h2 rs1 rs2 h1
  · intro rs1 ip rs2 h1
    unfold responseIp
    exact head?_filterMap_append _ (⟨.A ip⟩ : Record) ip rfl rs1 rs2 h1
  · intro rs1 port rs2 h1
    unfold responsePort
    exact head?_filterMap_append _ (⟨.SRV port⟩ : Record) port rfl rs1 rs2 h1

/-- C5 amended witness: a later fn pair in the record still names the
device, and duplicate A / SRV records after the first are ignored. -/
theorem c5_amended_first_wins_witness :
    txtName ["id=1", "fn=Foo"] = some "Foo" ∧
      responseIp ⟨[⟨.TXT ["fn=X"]⟩, ⟨.A ⟨10, 0, 0, 1⟩⟩, ⟨.A ⟨9, 9, 9, 9⟩⟩]⟩ =
        some ⟨10, 0, 0, 1⟩ ∧
      responsePort ⟨[⟨.A ⟨10, 0, 0, 1⟩⟩, ⟨.SRV 8009⟩, ⟨.SRV 9000⟩]⟩ = some 8009 :=
  ⟨(c5_amended_first_wins.1 ["id=1"] "fn=Foo" [] (by decide) (by decide)).trans (by decide),
   c5_amended_first_wins.2.2.1 [⟨.TXT ["fn=X"]⟩] ⟨10, 0, 0, 1⟩ [⟨.A ⟨9, 9, 9, 9⟩⟩] (by decide),
   c5_amended_first_wins.2.2.2 [⟨.A ⟨10, 0, 0, 1⟩⟩] 8009 [⟨.SRV 9000⟩] (by decide)⟩

/-- C6: when the initial multicast query cannot be issued, the
discovery stream is exactly the one transport failure and then ends —
no descriptor before or after it. -/
theorem c6_query_failure_single_error (e : Nat) :
    discoverRun (Except.error e) = [Except.error (Error.mdns e)] := rfl

/-- C7: `connect` opens the control connection, addresses the default
receiver endpoint, then pings, in that order; the first failing step
aborts with that step's error and no `Connection` is built (in
particular a ping failure yields none), while full success yields the
connection holding the device. -/
theorem c7_connect_sequence (cwhv : String → Nat → Except Nat CastDevice) (t : Target) :
    (∀ e, cwhv t.addr.ip.toDotted t.addr.port = .error e →
        targetConnect cwhv t =
          ([.openConnection t.addr.ip.toDotted t.addr.port], .error (.cast e))) ∧
      (∀ d e, cwhv t.addr.ip.toDotted t.addr.port = .ok d →
          d.connection_connect DEFAULT_DESTINATION_ID = .error e →
          targetConnect cwhv t =
            ([.openConnection t.addr.ip.toDotted t.addr.port,
              .connectDest DEFAULT_DESTINATION_ID], .error (.cast e))) ∧
      (∀ d e, cwhv t.addr.ip.toDotted t.addr.port = .ok d →
          d.connection_connect DEFAULT_DESTINATION_ID = .ok () →
          d.heartbeat_ping = .error e →
          targetConnect cwhv t =
            ([.openConnection t.addr.ip.toDotted t.addr.port,
              .connectDest DEFAULT_DESTINATION_ID, .ping], .error (.cast e))) ∧
      (∀ d, cwhv t.addr.ip.toDotted t.addr.port = .ok d →
          d.connection_connect DEFAULT_DESTINATION_ID = .ok () →
          d.heartbeat_ping = .ok () →
          targetConnect cwhv t =
            ([.openConnection t.addr.ip.toDotted t.addr.port,
              .connectDest DEFAULT_DESTINATION_ID, .ping], .ok ⟨d⟩)) := by
  refine ⟨?_, ?_, ?_, ?_⟩
  · intro e h
    simp [targetConnect, h]
  · intro d e h1 h2
    simp [targetConnect, h1, h2]
  · intro d e h1 h2 h3
    simp [targetConnect, h1, h2, h3]
  · intro d h1 h2 h3
    simp [targetConnect, h1, h2, h3]

/-- C7 witness: a refused connection stops after the open step, a
failed ping stops after all three steps with the ping error and no
connection, and a healthy device yields the connection. -/
theorem c7_connect_sequence_witness :
    targetConnect cwhvFail tHome =
        ([.openConnection "192.168.1.42" 8009], .error (.cast 7)) ∧
      targetConnect cwhvPing tHome =
        ([.openConnection "192.168.1.42" 8009, .connectDest "receiver-0", .ping],
          .error (.cast 9)) ∧
      targetConnect cwhvOk tHome =
        ([.openConnection "192.168.1.42" 8009, .connectDest "receiver-0", .ping],
          .ok ⟨deviceOk⟩) :=
  ⟨(c7_connect_sequence cwhvFail tHome).1 7 rfl,
   (c7_connect_sequence cwhvPing tHome).2.2.1 devicePingFail 9 rfl rfl rfl,
   (c7_connect_sequence cwhvOk tHome).2.2.2 deviceOk rfl rfl rfl⟩

/-- C8: a successful `speak` issues exactly launch of the fixed app id,
connect of the returned transport id, then load of a Buffered media
item with no duration, no metadata, content type `audio/mp3` and a
content locator built from the text and `"en"`; a failing step returns
its error and the later steps never appear in the call sequence. -/
theorem c8_speak_sequence (url : String → String → String) (c : Connection)
    (message : String) :
    sayMedia url message =
        { stream_type := .Buffered, duration := none, metadata := none,
          content_type := "audio/mp3", content_id := url message "en" } ∧
      (∀ e, c.device.launch_app "CC1AD845" = .error e →
          say url c message = ([.launch "CC1AD845"], .error (.cast e))) ∧
      (∀ app e, c.device.launch_app "CC1AD845" = .ok app →
          c.device.connection_connect app.transport_id = .error e →
          say url c message =
            ([.launch "CC1AD845", .connect app.transport_id], .error (.cast e))) ∧
      (∀ app e, c.device.launch_app "CC1AD845" = .ok app →
          c.device.connection_connect app.transport_id = .ok () →
          c.device.media_load app.transport_id app.session_id (sayMedia url message) =
            .error e →
          say url c message =
            ([.launch "CC1AD845", .connect app.transport_id,
              .load app.transport_id app.session_id (sayMedia url message)],
             .error (.cast e))) ∧
      (∀ app, c.device.launch_app "CC1AD845" = .ok app →
          c.device.connection_connect app.transport_id = .ok () →
          c.device.media_load app.transport_id app.session_id (sayMedia url message) =
            .ok () →
          say url c message =
            ([.launch "CC1AD845", .connect app.transport_id,
              .load app.transport_id app.session_id (sayMedia url message)], .ok ())) := by
  refine ⟨rfl, ?_, ?_, ?_, ?_⟩
  · intro e h
    simp [say, h]
  · intro app e h1 h2
    simp [say, h1, h2]
  · intro app e h1 h2 h3
    simp [say, h1, h2, h3]
  · intro app h1 h2 h3
    simp [say, h1, h2, h3]

/-- C8 witness: on a healthy device the call sequence is exactly
launch, connect, load of the Buffered `audio/mp3` item located at the
speech URL for `("hello", "en")`; when launch fails nothing after it is
called. -/
theorem c8_speak_sequence_witness :
    say urlFix ⟨deviceOk⟩ "hello" =
        ([.launch "CC1AD845", .connect "transport-1",
          .load "transport-1" "session-1"
            ⟨.Buffered, none, none, "audio/mp3", "tts/hello/en"⟩], .ok ()) ∧
      say urlFix ⟨deviceLaunchFail⟩ "hello" =
        ([.launch "CC1AD845"], .error (.cast 5)) :=
  ⟨(c8_speak_sequence urlFix ⟨deviceOk⟩ "hello").2.2.2.2 appFix rfl rfl rfl,
   (c8_speak_sequence urlFix ⟨deviceLaunchFail⟩ "hello").2.1 5 rfl⟩

/-- C9: deduplication identity is the socket address alone — whenever
two extracted descriptors carry the same address, the second is
suppressed even if their names (or the record order of the responses
they came from) differ. -/
theorem c9_identity_by_address (r1 r2 : Response) (t1 t2 : Target)
    (_h1 : extract r1 = some t1) (_h2 : extract r2 = some t2)
    (h : t1.addr = t2.addr) :
    uniqueRun [] [Except.ok t1, Except.ok t2] = [Except.ok t1] := by
  simp [uniqueRun, h]

/-- C9 witness: two responses for address `10.0.0.1:8009`, with
permuted records and different names, dedupe to the first descriptor. -/
theorem c9_identity_by_address_witness :
    uniqueRun []
        [Except.ok ⟨"A", ⟨⟨10, 0, 0, 1⟩, 8009⟩⟩, Except.ok ⟨"B", ⟨⟨10, 0, 0, 1⟩, 8009⟩⟩] =
      [Except.ok ⟨"A", ⟨⟨10, 0, 0, 1⟩, 8009⟩⟩] :=
  c9_identity_by_address rOrderA rOrderB
    ⟨"A", ⟨⟨10, 0, 0, 1⟩, 8009⟩⟩ ⟨"B", ⟨⟨10, 0, 0, 1⟩, 8009⟩⟩
    (by decide) (by decide) rfl

/-- C10: a selected fn pair keeps only the segment between the first
and second `=` (`fn=a=b` names the device `a`), and a bare `fn` pair
first in a record blocks that record (its contribution is nothing) so
the scan falls through to the next text record of the response. -/
theorem c10_fn_value_parse :
    (∀ more : List String, txtName ("fn=a=b" :: more) = some "a") ∧
      (∀ rest : List String, txtName ("fn" :: rest) = none) ∧
      (∀ (rest data2 : List String),
          responseName ⟨[⟨.TXT ("fn" :: rest)⟩, ⟨.TXT data2⟩]⟩ = txtName data2) := by
  refine ⟨?_, txtName_fn_bare, ?_⟩
  · intro more
    simp only [txtName, List.filter_cons]
    rw [if_pos (by decide)]
    rfl
  · intro rest data2
    have h0 := txtName_fn_bare rest
    cases htn : txtName data2 <;>
      simp [responseName, recordName, List.filterMap_cons, h0, htn]

end CastNotify
